import Mathlib

/-!
Verification of the community-feed backend (`src/server.js`) against its
specification. The server is a single-file Express + SQLite application; we
embed its data model (four tables: posts, media, reactions, comments, plus the
uploads directory) and each request handler as pure Lean functions, threading
the database state explicitly. Externally generated values (UUIDs from
`uuidv4()`, timestamps from `Date.now()`) are passed in as parameters.
-/

namespace FeedServer

/-- A row of the `posts` table (`CREATE TABLE posts` in server.js). -/
structure Post where
  id : String
  author : String
  text : String
  community : String
  created_at : Nat
  deriving Repr, DecidableEq

/-- A row of the `media` table. -/
structure Media where
  id : String
  post_id : String
  filename : String
  mime : String
  deriving Repr, DecidableEq

/-- A row of the `reactions` table. -/
structure Reaction where
  id : String
  post_id : String
  type : String
  user : String
  created_at : Nat
  deriving Repr, DecidableEq

/-- A row of the `comments` table. -/
structure Comment where
  id : String
  post_id : String
  user : String
  text : String
  created_at : Nat
  deriving Repr, DecidableEq

/-- The SQLite database: the four tables, each as a list of rows in insertion
order (SQLite iterates rows of these tables in rowid = insertion order). -/
structure DB where
  posts : List Post
  media : List Media
  reactions : List Reaction
  comments : List Comment
  deriving Repr, DecidableEq

/-- Full server state: the database plus the uploads directory, modelled as the
list of filenames currently present on disk. -/
structure ServerState where
  db : DB
  uploads : List String
  deriving Repr, DecidableEq

/-! ## Comment handler: `app.post('/api/posts/:id/comments')` -/

/-- Response of the comment handler: either an error status with an error
message (`res.status(400).json({success:false, error})`), or success
(`res.json({success:true, id})`, HTTP status 200). -/
inductive CommentResp where
  | err (status : Nat) (error : String)
  | ok (status : Nat) (id : String)
  deriving Repr, DecidableEq

/-- The comment handler. JS destructuring `{ user = 'anonymous', text = '' }`
is modelled by `Option.getD`; `if (!text)` on a string tests emptiness.
`freshId` stands for `uuidv4()` and `now` for `Date.now()`. -/
def addComment (post_id : String) (user text : Option String)
    (freshId : String) (now : Nat) (db : DB) : DB × CommentResp :=
  let u := user.getD "anonymous"
  let t := text.getD ""
  if t = "" then
    (db, .err 400 "Texto vazio")
  else
    ({ db with comments := db.comments ++ [⟨freshId, post_id, u, t, now⟩] },
     .ok 200 freshId)

/-- Number of comment rows whose `post_id` is `pid`
(`SELECT COUNT(*) FROM comments WHERE post_id = ?`). -/
def commentCountFor (db : DB) (pid : String) : Nat :=
  (db.comments.filter (fun c => c.post_id = pid)).length

/-! ## Reaction handler: `app.post('/api/posts/:id/reactions')` -/

/-- Response of the reaction handler: `res.json({success:true, id})`. -/
inductive ReactionResp where
  | ok (status : Nat) (id : String)
  deriving Repr, DecidableEq

/-- The reaction handler. JS destructuring `{ type = 'like', user = 'anonymous' }`
is modelled by `Option.getD`; the handler always inserts one new row. -/
def addReaction (post_id : String) (type user : Option String)
    (freshId : String) (now : Nat) (db : DB) : DB × ReactionResp :=
  let t := type.getD "like"
  let u := user.getD "anonymous"
  ({ db with reactions := db.reactions ++ [⟨freshId, post_id, t, u, now⟩] },
   .ok 200 freshId)

/-! ## List handler: `app.get('/api/posts')` -/

/-- Effective page: `Math.max(1, parseInt(req.query.page || '1'))`.
The query parameter is `none` when absent, `some v` when it parses to `v`. -/
def effectivePage (page : Option Int) : Int :=
  max 1 (page.getD 1)

/-- Effective limit: `Math.min(50, parseInt(req.query.limit || '8'))`.
Note the code applies only an upper clamp to the limit. -/
def effectiveLimit (limit : Option Int) : Int :=
  min 50 (limit.getD 8)

/-- Offset of the fetch window: `const offset = (page - 1) * limit`. -/
def listOffset (page limit : Option Int) : Int :=
  (effectivePage page - 1) * effectiveLimit limit

/-- Ordering used by `ORDER BY created_at DESC`: `a` precedes `b` when its
timestamp is at least `b`'s. -/
def createdDesc (a b : Post) : Prop :=
  b.created_at ≤ a.created_at

instance : DecidableRel createdDesc :=
  fun _ _ => Nat.decLe _ _

instance : IsTotal Post createdDesc :=
  ⟨fun a b => Nat.le_total b.created_at a.created_at⟩

instance : IsTrans Post createdDesc :=
  ⟨fun _ _ _ h1 h2 => Nat.le_trans h2 h1⟩

/-- `SELECT * FROM posts ORDER BY created_at DESC`: a stable sort of the table
by descending `created_at` (ties keep store iteration order, which the spec
leaves unspecified). -/
def sortPostsDesc (ps : List Post) : List Post :=
  ps.insertionSort createdDesc

/-- `LIMIT ? OFFSET ?` applied to an ordered row list, with SQLite semantics:
a negative offset behaves like 0, and a negative limit means no limit. -/
def sqlWindow (rows : List Post) (limit offset : Int) : List Post :=
  let dropped := rows.drop offset.toNat
  if limit < 0 then dropped else dropped.take limit.toNat

/-- A media entry as shaped for the API:
`{ url: "/uploads/" + filename, mime }`. -/
structure MediaView where
  url : String
  mime : String
  deriving Repr, DecidableEq

/-- `SELECT filename, mime FROM media WHERE post_id = ?`, shaped into views. -/
def mediaViewsFor (db : DB) (pid : String) : List MediaView :=
  (db.media.filter (fun m => m.post_id = pid)).map
    (fun m => ⟨"/uploads/" ++ m.filename, m.mime⟩)

/-- Reaction rows of one post: `SELECT ... FROM reactions WHERE post_id = ?`. -/
def reactionRowsFor (db : DB) (pid : String) : List Reaction :=
  db.reactions.filter (fun r => r.post_id = pid)

/-- `SELECT type, COUNT(*) as cnt FROM reactions WHERE post_id = ? GROUP BY
type`, then `reactions.forEach(r => reactionObj[r.type] = r.cnt)`: one
(type, count) pair per distinct type among the post's reaction rows. SQLite
does not specify group output order without ORDER BY; we use an arbitrary
duplicate-free enumeration of the types present. -/
def reactionCounts (db : DB) (pid : String) : List (String × Nat) :=
  let rs := reactionRowsFor db pid
  ((rs.map (fun r => r.type)).dedup).map
    (fun t => (t, (rs.filter (fun r => r.type = t)).length))

/-- Number of the post's reaction rows of one given type. -/
def typedReactionCount (db : DB) (pid t : String) : Nat :=
  ((reactionRowsFor db pid).filter (fun r => r.type = t)).length

/-- One element of the `posts` array in the list response: the post row spread
together with `media`, `reactions` and `comments_count`. -/
structure AggPost where
  post : Post
  media : List MediaView
  reactions : List (String × Nat)
  comments_count : Nat
  deriving Repr, DecidableEq

/-- The aggregation performed for each fetched row inside
`rows.map(async (p) => ...)`. -/
def aggregate (db : DB) (p : Post) : AggPost :=
  { post := p
    media := mediaViewsFor db p.id
    reactions := reactionCounts db p.id
    comments_count := commentCountFor db p.id }

/-- Response of the list handler: `res.json({success:true, page, limit, posts})`
(HTTP status 200). -/
structure ListResp where
  page : Int
  limit : Int
  posts : List AggPost
  deriving Repr, DecidableEq

/-- The list handler. -/
def listPosts (page limit : Option Int) (db : DB) : ListResp :=
  let p := effectivePage page
  let l := effectiveLimit limit
  let offset := (p - 1) * l
  { page := p
    limit := l
    posts := (sqlWindow (sortPostsDesc db.posts) l offset).map (aggregate db) }

/-! ## Single-post handler: `app.get('/api/posts/:id')` -/

/-- `SELECT * FROM posts WHERE id = ?` via `getAsync`: the first matching row,
or none. -/
def findPost (db : DB) (id : String) : Option Post :=
  db.posts.find? (fun p => p.id = id)

/-- Response of the single-post handler: 404 with an error message when the
post is absent, otherwise 200 with the post row and its media views. The
handler attaches only `post.media`; the response type has no field for
reactions or comment counts because the handler never fetches them. -/
inductive GetPostResp where
  | notFound (status : Nat) (error : String)
  | ok (status : Nat) (post : Post) (media : List MediaView)
  deriving Repr, DecidableEq

/-- The single-post handler. -/
def getPost (id : String) (db : DB) : GetPostResp :=
  match findPost db id with
  | none => .notFound 404 "not found"
  | some p => .ok 200 p (mediaViewsFor db id)

/-! ## Create handler: `app.post('/api/posts')` -/

/-- One uploaded file as multer hands it to the handler: the collision-avoided
on-disk name and the reported mime type. -/
structure UploadedFile where
  filename : String
  mimetype : String
  deriving Repr, DecidableEq

/-- Response of the create handler: `res.json({success:true, post})` where
`post` is the result of re-fetching the inserted row (an `Option` because
`getAsync` may in principle find nothing). -/
inductive CreateResp where
  | ok (status : Nat) (post : Option Post)
  deriving Repr, DecidableEq

/-- The create handler. `postId` stands for the `uuidv4()` post id, `mediaIds`
for the per-file `uuidv4()` media ids (one per uploaded file), `now` for
`Date.now()`. Multer has already written the uploaded files to the uploads
directory before the handler body runs. -/
def createPost (text author community : Option String)
    (files : List UploadedFile) (postId : String) (mediaIds : List String)
    (now : Nat) (st : ServerState) : ServerState × CreateResp :=
  let t := text.getD ""
  let a := author.getD "Anônimo"
  let c := community.getD ""
  let newPost : Post := ⟨postId, a, t, c, now⟩
  let newMedia : List Media :=
    List.zipWith
      (fun mid (f : UploadedFile) => ⟨mid, postId, f.filename, f.mimetype⟩)
      mediaIds files
  let db2 : DB :=
    { st.db with
        posts := st.db.posts ++ [newPost]
        media := st.db.media ++ newMedia }
  ({ db := db2, uploads := st.uploads ++ files.map (fun f => f.filename) },
   .ok 200 (findPost db2 postId))

/-! ## Delete handler: `app.delete('/api/posts/:id')` -/

/-- On-disk names of the media files owned by one post
(`SELECT filename FROM media WHERE post_id = ?`). -/
def ownedFilenames (db : DB) (pid : String) : List String :=
  (db.media.filter (fun m => m.post_id = pid)).map (fun m => m.filename)

/-- Response of the delete handler: `res.json({success:true})`, status 200. -/
inductive DeleteResp where
  | ok (status : Nat)
  deriving Repr, DecidableEq

/-- The delete handler: unlink each owned file that exists (absence is not an
error — the `fs.existsSync` guard makes removal a no-op for missing files),
then delete the media, reaction and comment rows by post_id, then the post
row. -/
def deletePost (id : String) (st : ServerState) : ServerState × DeleteResp :=
  let owned := ownedFilenames st.db id
  let uploads1 := st.uploads.filter (fun f => f ∉ owned)
  let db1 : DB :=
    { posts := st.db.posts.filter (fun p => p.id ≠ id)
      media := st.db.media.filter (fun m => m.post_id ≠ id)
      reactions := st.db.reactions.filter (fun r => r.post_id ≠ id)
      comments := st.db.comments.filter (fun c => c.post_id ≠ id) }
  ({ db := db1, uploads := uploads1 }, .ok 200)

/-! ## Concrete sample data used by the witnesses -/

/-- Twenty posts with ids "1".."20" and strictly increasing timestamps. -/
def samplePosts20 : List Post :=
  (List.range 20).map (fun i => ⟨toString (i + 1), "a", "t", "", i + 1⟩)

/-- A database holding only the twenty sample posts. -/
def sampleDb20 : DB :=
  ⟨samplePosts20, [], [], []⟩

/-- A database with one post that has three "like" reactions and one "wow"
reaction (the spec's §8 example). -/
def sampleReactDb : DB :=
  ⟨[⟨"p1", "Bob", "hi", "", 1⟩],
   [],
   [⟨"r1", "p1", "like", "u1", 2⟩, ⟨"r2", "p1", "wow", "u2", 3⟩,
    ⟨"r3", "p1", "like", "u3", 4⟩, ⟨"r4", "p1", "like", "u4", 5⟩],
   []⟩

/-- A server state with one post owning one media file, plus one unrelated
file on disk. -/
def sampleDeleteState : ServerState :=
  ⟨⟨[⟨"p1", "Bob", "hi", "", 1⟩],
    [⟨"m1", "p1", "f1.png", "image/png"⟩],
    [⟨"r1", "p1", "like", "u1", 2⟩],
    [⟨"c1", "p1", "u1", "nice", 3⟩]⟩,
   ["f1.png", "other.png"]⟩

end FeedServer

namespace FeedServer

/-- C1: an add-comment request whose (defaulted) text is the empty string is
answered 400 with error "Texto vazio" and leaves the database — in particular
the comment count of the post — unchanged; a request with non-empty text
appends exactly one comment row and is answered `{success:true, id}`. -/
theorem addComment_empty_rejected_nonempty_inserts
    (post_id : String) (user text : Option String)
    (freshId : String) (now : Nat) (db : DB) :
    (text.getD "" = "" →
      (addComment post_id user text freshId now db).2 = .err 400 "Texto vazio"
      ∧ (addComment post_id user text freshId now db).1 = db
      ∧ commentCountFor (addComment post_id user text freshId now db).1 post_id
          = commentCountFor db post_id)
    ∧ (text.getD "" ≠ "" →
      (addComment post_id user text freshId now db).1.comments
          = db.comments ++ [⟨freshId, post_id, user.getD "anonymous", text.getD "", now⟩]
      ∧ (addComment post_id user text freshId now db).2 = .ok 200 freshId) := by
  constructor
  · intro h
    simp [addComment, h]
  · intro h
    simp [addComment, h]

/-- Witness for C1 at concrete inputs: empty text is rejected with 400,
non-empty text is accepted with the fresh id. -/
theorem addComment_empty_rejected_nonempty_inserts_witness :
    (addComment "p1" none (some "") "c1" 5 ⟨[], [], [], []⟩).2 = .err 400 "Texto vazio"
    ∧ (addComment "p1" none (some "hi") "c2" 6 ⟨[], [], [], []⟩).2 = .ok 200 "c2" :=
  ⟨((addComment_empty_rejected_nonempty_inserts "p1" none (some "") "c1" 5
      ⟨[], [], [], []⟩).1 (by decide)).1,
   ((addComment_empty_rejected_nonempty_inserts "p1" none (some "hi") "c2" 6
      ⟨[], [], [], []⟩).2 (by decide)).2⟩

/-- C2 counterexample: a list-posts request with limit 0 has effective limit 0,
which does not lie in the interval [1,50] — the code applies no lower clamp to
the limit, contradicting the claim that values below 1 are clamped to 1. -/
theorem effectiveLimit_not_clamped_below :
    effectiveLimit (some 0) = 0 ∧ ¬ 1 ≤ effectiveLimit (some 0) := by
  decide

/-- C2 (amended): the effective page is at least 1 — defaulting to 1 when
absent, a value below 1 yielding exactly 1 and a value at least 1 used as
given; the effective limit defaults to 8 when absent, a value above 50 yields
exactly 50, and a supplied value at most 50 — including 0 or a negative value
— is used as given, with no lower clamp; the fetch window starts at offset
(page-1)*limit. -/
theorem listParams_effective (page limit : Option Int) (db : DB) :
    1 ≤ effectivePage page
    ∧ effectivePage none = 1
    ∧ (∀ v : Int, page = some v → 1 ≤ v → effectivePage page = v)
    ∧ (∀ v : Int, page = some v → v < 1 → effectivePage page = 1)
    ∧ effectiveLimit none = 8
    ∧ effectiveLimit limit ≤ 50
    ∧ (∀ v : Int, limit = some v → v ≤ 50 → effectiveLimit limit = v)
    ∧ (∀ v : Int, limit = some v → 50 < v → effectiveLimit limit = 50)
    ∧ listOffset page limit = (effectivePage page - 1) * effectiveLimit limit
    ∧ (listPosts page limit db).page = effectivePage page
    ∧ (listPosts page limit db).limit = effectiveLimit limit
    ∧ (listPosts page limit db).posts
        = (sqlWindow (sortPostsDesc db.posts) (effectiveLimit limit)
            (listOffset page limit)).map (aggregate db) := by
  refine ⟨le_max_left 1 _, rfl, ?_, ?_, rfl, min_le_left 50 _, ?_, ?_, rfl, rfl, rfl, rfl⟩
  · intro v hv h1
    simp only [effectivePage, hv, Option.getD_some]
    exact max_eq_right h1
  · intro v hv h1
    simp only [effectivePage, hv, Option.getD_some]
    exact max_eq_left (by omega)
  · intro v hv h50
    simp only [effectiveLimit, hv, Option.getD_some]
    exact min_eq_right h50
  · intro v hv h50
    simp only [effectiveLimit, hv, Option.getD_some]
    exact min_eq_left (by omega)

/-- Witness for C2 (amended) at concrete inputs: page 0 is clamped to exactly
1, page 3 stays 3, limit 60 is clamped to exactly 50, limit 7 stays 7. -/
theorem listParams_effective_witness :
    effectivePage (some 0) = 1
    ∧ effectivePage (some 3) = 3
    ∧ effectiveLimit (some 60) = 50
    ∧ effectiveLimit (some 7) = 7 :=
  ⟨(listParams_effective (some 0) (some 7) ⟨[], [], [], []⟩).2.2.2.1 0 rfl (by decide),
   (listParams_effective (some 3) (some 7) ⟨[], [], [], []⟩).2.2.1 3 rfl (by decide),
   (listParams_effective (some 3) (some 60) ⟨[], [], [], []⟩).2.2.2.2.2.2.2.1 60 rfl
     (by decide),
   (listParams_effective (some 3) (some 7) ⟨[], [], [], []⟩).2.2.2.2.2.2.1 7 rfl
     (by decide)⟩

/-- C3: for every database and every valid page and limit, the list-posts
result is the window of size limit starting after the first (page-1)*limit
entries of the posts sorted by created_at descending; the sorted sequence is
sorted under `createdDesc` and is a permutation of the stored posts. -/
theorem listPosts_sorted_window (pv lv : Int) (db : DB)
    (hp : 1 ≤ pv) (hl1 : 1 ≤ lv) (hl2 : lv ≤ 50) :
    (listPosts (some pv) (some lv) db).posts
      = (((sortPostsDesc db.posts).drop ((pv - 1) * lv).toNat).take lv.toNat).map
          (aggregate db)
    ∧ List.Sorted createdDesc (sortPostsDesc db.posts)
    ∧ (sortPostsDesc db.posts).Perm db.posts := by
  refine ⟨?_, List.sorted_insertionSort createdDesc db.posts,
    List.perm_insertionSort createdDesc db.posts⟩
  have hpv : effectivePage (some pv) = pv := max_eq_right hp
  have hlv : effectiveLimit (some lv) = lv := min_eq_right hl2
  have hW : sqlWindow (sortPostsDesc db.posts) lv ((pv - 1) * lv)
      = ((sortPostsDesc db.posts).drop ((pv - 1) * lv).toNat).take lv.toNat := by
    unfold sqlWindow
    rw [if_neg (by omega)]
  simp [listPosts, hpv, hlv, hW]

/-- Witness for C3: with limit 8 and page 2 over the twenty sample posts, the
listed posts are exactly the ones ranked 9 through 16 by descending
created_at, i.e. the posts with timestamps 12 down to 5. -/
theorem listPosts_sorted_window_witness :
    ((listPosts (some 2) (some 8) sampleDb20).posts.map (fun a => a.post.created_at))
      = [12, 11, 10, 9, 8, 7, 6, 5] := by
  have h := (listPosts_sorted_window 2 8 sampleDb20 (by decide) (by decide) (by decide)).1
  rw [h]
  decide

/-- Helper: membership in the grouped reaction counts characterises exactly
the types with at least one row, each paired with its exact row count. -/
theorem mem_reactionCounts_iff (db : DB) (pid t : String) (n : Nat) :
    (t, n) ∈ reactionCounts db pid ↔
      0 < typedReactionCount db pid t ∧ n = typedReactionCount db pid t := by
  unfold reactionCounts typedReactionCount
  simp only [List.mem_map, List.mem_dedup, Prod.mk.injEq,
    List.length_pos_iff_exists_mem, List.mem_filter, decide_eq_true_eq]
  constructor
  · rintro ⟨t', ⟨r, hr, hty⟩, rfl, rfl⟩
    exact ⟨⟨r, ⟨hr, hty⟩⟩, rfl⟩
  · rintro ⟨⟨r, hr, hty⟩, rfl⟩
    exact ⟨t, ⟨r, hr, hty⟩, rfl, rfl⟩

/-- Helper: the per-type count over the post's rows counts exactly the
reaction rows carrying both that post_id and that type. -/
theorem typedReactionCount_eq_filter_length (db : DB) (pid t : String) :
    typedReactionCount db pid t
      = (db.reactions.filter (fun r => r.post_id = pid ∧ r.type = t)).length := by
  unfold typedReactionCount reactionRowsFor
  rw [List.filter_filter]
  exact congrArg List.length (List.filter_congr (fun r _ => by simp [Bool.and_comm]))

/-- C4: every post in a list-posts result carries a reactions mapping whose
entries are exactly the types with at least one reaction row for that post,
each mapped to the exact number of such rows (types with zero rows are
absent), and a comments_count equal to the total number of comment rows for
that post — in particular 0 when there are none. -/
theorem listPosts_aggregation (page limit : Option Int) (db : DB) (a : AggPost)
    (ha : a ∈ (listPosts page limit db).posts) :
    (∀ t n, (t, n) ∈ a.reactions ↔
        0 < typedReactionCount db a.post.id t
        ∧ n = typedReactionCount db a.post.id t)
    ∧ (∀ t, typedReactionCount db a.post.id t
        = (db.reactions.filter (fun r => r.post_id = a.post.id ∧ r.type = t)).length)
    ∧ a.comments_count = commentCountFor db a.post.id
    ∧ ((∀ c ∈ db.comments, c.post_id ≠ a.post.id) → a.comments_count = 0) := by
  obtain ⟨p, hp, rfl⟩ := List.mem_map.mp ha
  refine ⟨fun t n => mem_reactionCounts_iff db p.id t n,
    fun t => typedReactionCount_eq_filter_length db p.id t, rfl, ?_⟩
  intro h
  show commentCountFor db p.id = 0
  unfold commentCountFor
  rw [List.length_eq_zero, List.filter_eq_nil_iff]
  intro c hc
  simpa using h c hc

/-- Witness for C4 on the §8 example database (three "like" rows and one "wow"
row on post "p1"): the aggregated mapping contains ("like", 3) and the
comment count is 0. -/
theorem listPosts_aggregation_witness :
    ("like", 3) ∈ (aggregate sampleReactDb ⟨"p1", "Bob", "hi", "", 1⟩).reactions
    ∧ (aggregate sampleReactDb ⟨"p1", "Bob", "hi", "", 1⟩).comments_count = 0 := by
  have h := listPosts_aggregation none none sampleReactDb
    (aggregate sampleReactDb ⟨"p1", "Bob", "hi", "", 1⟩) (by decide)
  exact ⟨(h.1 "like" 3).mpr (by decide), h.2.2.2 (by decide)⟩

/-- Helper: anything in a LIMIT/OFFSET window of a row list is in the list. -/
theorem mem_of_mem_sqlWindow {rows : List Post} {limit offset : Int} {p : Post}
    (h : p ∈ sqlWindow rows limit offset) : p ∈ rows := by
  unfold sqlWindow at h
  by_cases hl : limit < 0
  · rw [if_pos hl] at h
    exact List.mem_of_mem_drop h
  · rw [if_neg hl] at h
    exact List.mem_of_mem_drop (List.mem_of_mem_take h)

/-- C5: every add-reaction call appends exactly one new reaction row —
unconditionally, so also when an identical (post_id, type, user) row already
exists — modifies no other row and no other table, responds
`{success:true, id}`, and the inserted row's type defaults to "like" and its
user to "anonymous" when the field is absent. -/
theorem addReaction_appends_one_row
    (post_id : String) (type user : Option String)
    (freshId : String) (now : Nat) (db : DB) :
    (addReaction post_id type user freshId now db).1.reactions
        = db.reactions
            ++ [⟨freshId, post_id, type.getD "like", user.getD "anonymous", now⟩]
    ∧ (addReaction post_id type user freshId now db).1.posts = db.posts
    ∧ (addReaction post_id type user freshId now db).1.media = db.media
    ∧ (addReaction post_id type user freshId now db).1.comments = db.comments
    ∧ (addReaction post_id type user freshId now db).2 = .ok 200 freshId := by
  simp [addReaction]

/-- C6: delete-post removes from the uploads directory exactly the files owned
by the post (removal of a name not on disk is a no-op, not an error), removes
exactly the Media, Reaction and Comment rows with that post_id and the Post
row itself, and responds success; afterwards the post id appears in no list
or get result and none of its dependent rows remain. -/
theorem deletePost_cascades (id : String) (st : ServerState) :
    (deletePost id st).2 = .ok 200
    ∧ (deletePost id st).1.uploads
        = st.uploads.filter (fun f => f ∉ ownedFilenames st.db id)
    ∧ (deletePost id st).1.db.posts = st.db.posts.filter (fun p => p.id ≠ id)
    ∧ (deletePost id st).1.db.media = st.db.media.filter (fun m => m.post_id ≠ id)
    ∧ (deletePost id st).1.db.reactions
        = st.db.reactions.filter (fun r => r.post_id ≠ id)
    ∧ (deletePost id st).1.db.comments
        = st.db.comments.filter (fun c => c.post_id ≠ id)
    ∧ (∀ p ∈ (deletePost id st).1.db.posts, p.id ≠ id)
    ∧ (∀ m ∈ (deletePost id st).1.db.media, m.post_id ≠ id)
    ∧ (∀ r ∈ (deletePost id st).1.db.reactions, r.post_id ≠ id)
    ∧ (∀ c ∈ (deletePost id st).1.db.comments, c.post_id ≠ id)
    ∧ getPost id (deletePost id st).1.db = .notFound 404 "not found"
    ∧ (∀ page limit a, a ∈ (listPosts page limit (deletePost id st).1.db).posts →
        a.post.id ≠ id) := by
  have hposts : ∀ p ∈ (deletePost id st).1.db.posts, p.id ≠ id := by
    intro p hp
    simpa using (List.mem_filter.mp hp).2
  refine ⟨rfl, rfl, rfl, rfl, rfl, rfl, hposts, ?_, ?_, ?_, ?_, ?_⟩
  · intro m hm
    simpa using (List.mem_filter.mp hm).2
  · intro r hr
    simpa using (List.mem_filter.mp hr).2
  · intro c hc
    simpa using (List.mem_filter.mp hc).2
  · have hn : findPost (deletePost id st).1.db id = none :=
      List.find?_eq_none.mpr (fun p hp => by simpa using hposts p hp)
    unfold getPost
    rw [hn]
  · intro page limit a ha
    obtain ⟨p, hp, rfl⟩ := List.mem_map.mp ha
    exact hposts p ((List.mem_insertionSort createdDesc).mp (mem_of_mem_sqlWindow hp))

/-- Witness for C6 at a concrete state: the delete succeeds and only the
post's own file is removed from the uploads directory. -/
theorem deletePost_cascades_witness :
    (deletePost "p1" sampleDeleteState).2 = .ok 200
    ∧ (deletePost "p1" sampleDeleteState).1.uploads = ["other.png"] := by
  have h := deletePost_cascades "p1" sampleDeleteState
  exact ⟨h.1, h.2.1.trans (by decide)⟩

/-- C7: when no post has the requested id, the single-post handler answers 404
with error "not found" (and no post payload); when the id is found it answers
200 with the post row and its media views — url "/uploads/" ++ filename plus
mime — and the response carries no reaction or comment data. -/
theorem getPost_notFound_or_ok (id : String) (db : DB) :
    ((∀ p ∈ db.posts, p.id ≠ id) → getPost id db = .notFound 404 "not found")
    ∧ (∀ p, findPost db id = some p →
        getPost id db = .ok 200 p
          ((db.media.filter (fun m => m.post_id = id)).map
            (fun m => ⟨"/uploads/" ++ m.filename, m.mime⟩))) := by
  constructor
  · intro h
    have hn : findPost db id = none :=
      List.find?_eq_none.mpr (fun p hp => by simpa using h p hp)
    unfold getPost
    rw [hn]
  · intro p hp
    unfold getPost
    rw [hp]
    rfl

/-- Witness for C7: a missing id is answered 404, an existing one 200 with an
empty media list. -/
theorem getPost_notFound_or_ok_witness :
    getPost "ghost" sampleReactDb = .notFound 404 "not found"
    ∧ getPost "p1" sampleReactDb = .ok 200 ⟨"p1", "Bob", "hi", "", 1⟩ [] :=
  ⟨(getPost_notFound_or_ok "ghost" sampleReactDb).1 (by decide),
   ((getPost_notFound_or_ok "p1" sampleReactDb).2 ⟨"p1", "Bob", "hi", "", 1⟩
      (by decide)).trans (by decide)⟩

/-- C8: a create-post request inserts exactly one post row — author defaulting
to "Anônimo", text and community to the empty string, created_at set to now —
and exactly one media row per uploaded file, touches no other table, and
responds `{success:true, post}` with the freshly inserted row (no media,
reactions or comments attached). -/
theorem createPost_inserts (text author community : Option String)
    (files : List UploadedFile) (postId : String) (mediaIds : List String)
    (now : Nat) (st : ServerState)
    (hfresh : ∀ p ∈ st.db.posts, p.id ≠ postId)
    (hlen : mediaIds.length = files.length)
    (_hk : files.length ≤ 6) :
    (createPost text author community files postId mediaIds now st).1.db.posts
        = st.db.posts
            ++ [⟨postId, author.getD "Anônimo", text.getD "", community.getD "", now⟩]
    ∧ ((createPost text author community files postId mediaIds now st).1.db.media).length
        = st.db.media.length + files.length
    ∧ (createPost text author community files postId mediaIds now st).1.db.media
        = st.db.media ++ List.zipWith
            (fun mid (f : UploadedFile) => (⟨mid, postId, f.filename, f.mimetype⟩ : Media))
            mediaIds files
    ∧ (createPost text author community files postId mediaIds now st).1.db.reactions
        = st.db.reactions
    ∧ (createPost text author community files postId mediaIds now st).1.db.comments
        = st.db.comments
    ∧ (createPost text author community files postId mediaIds now st).2
        = .ok 200
            (some ⟨postId, author.getD "Anônimo", text.getD "", community.getD "", now⟩) := by
  refine ⟨rfl, ?_, rfl, rfl, rfl, ?_⟩
  · simp [createPost, List.length_zipWith, hlen]
  · have hn : st.db.posts.find? (fun p => p.id = postId) = none :=
      List.find?_eq_none.mpr (fun p hp => by simpa using hfresh p hp)
    show CreateResp.ok 200 (findPost _ postId) = _
    unfold findPost
    simp [List.find?_append, hn, List.find?]

/-- Witness for C8: creating a post with one file over the empty state yields
the defaulted post row back and one media row. -/
theorem createPost_inserts_witness :
    (createPost (some "hi") (some "Bob") none [⟨"f1.png", "image/png"⟩] "pX" ["m1"] 9
        ⟨⟨[], [], [], []⟩, []⟩).2
      = .ok 200 (some ⟨"pX", "Bob", "hi", "", 9⟩)
    ∧ (createPost (some "hi") (some "Bob") none [⟨"f1.png", "image/png"⟩] "pX" ["m1"] 9
        ⟨⟨[], [], [], []⟩, []⟩).1.db.media.length = 1 := by
  have h := createPost_inserts (some "hi") (some "Bob") none [⟨"f1.png", "image/png"⟩]
    "pX" ["m1"] 9 ⟨⟨[], [], [], []⟩, []⟩ (by decide) (by decide) (by decide)
  exact ⟨h.2.2.2.2.2.trans (by decide), h.2.1.trans (by decide)⟩

/-- C9: neither add-reaction nor add-comment checks that the post id exists:
over a database in which no post has the given id, both handlers succeed with
`{success:true, id}` and append a row whose post_id matches no post. -/
theorem insert_without_post_check (pid : String) (db : DB)
    (hnone : ∀ p ∈ db.posts, p.id ≠ pid)
    (ty ruser cuser text : Option String) (fid1 fid2 : String) (now1 now2 : Nat)
    (ht : text.getD "" ≠ "") :
    (addReaction pid ty ruser fid1 now1 db).2 = .ok 200 fid1
    ∧ (addReaction pid ty ruser fid1 now1 db).1.reactions
        = db.reactions ++ [⟨fid1, pid, ty.getD "like", ruser.getD "anonymous", now1⟩]
    ∧ (∀ p ∈ (addReaction pid ty ruser fid1 now1 db).1.posts, p.id ≠ pid)
    ∧ (addComment pid cuser text fid2 now2 db).2 = .ok 200 fid2
    ∧ (addComment pid cuser text fid2 now2 db).1.comments
        = db.comments ++ [⟨fid2, pid, cuser.getD "anonymous", text.getD "", now2⟩]
    ∧ (∀ p ∈ (addComment pid cuser text fid2 now2 db).1.posts, p.id ≠ pid) := by
  refine ⟨rfl, rfl, hnone, ?_, ?_, ?_⟩
  · simp [addComment, ht]
  · simp [addComment, ht]
  · have hposts : (addComment pid cuser text fid2 now2 db).1.posts = db.posts := by
      unfold addComment
      rw [if_neg ht]
    rw [hposts]
    exact hnone

/-- Witness for C9: over the empty database — whose post table contains no id
at all — both handlers succeed. -/
theorem insert_without_post_check_witness :
    (addReaction "ghost" none none "r9" 1 ⟨[], [], [], []⟩).2 = .ok 200 "r9"
    ∧ (addComment "ghost" none (some "hey") "c9" 2 ⟨[], [], [], []⟩).2 = .ok 200 "c9" := by
  have h := insert_without_post_check "ghost" ⟨[], [], [], []⟩ (by decide)
    none none none (some "hey") "r9" "c9" 1 2 (by decide)
  exact ⟨h.1, h.2.2.2.1⟩

/-- C10: deleting an id that matches no post and owns no media, reaction or
comment rows responds `{success:true}` with status 200 and leaves the whole
server state unchanged — there is no not-found report. -/
theorem deletePost_missing_noop (id : String) (st : ServerState)
    (hp : ∀ p ∈ st.db.posts, p.id ≠ id)
    (hm : ∀ m ∈ st.db.media, m.post_id ≠ id)
    (hr : ∀ r ∈ st.db.reactions, r.post_id ≠ id)
    (hc : ∀ c ∈ st.db.comments, c.post_id ≠ id) :
    deletePost id st = (st, .ok 200) := by
  have howned : ownedFilenames st.db id = [] := by
    unfold ownedFilenames
    rw [List.filter_eq_nil_iff.mpr (fun m hm2 => by simpa using hm m hm2)]
    rfl
  have h1 : st.db.posts.filter (fun p => p.id ≠ id) = st.db.posts :=
    List.filter_eq_self.mpr (fun p hp2 => by simpa using hp p hp2)
  have h2 : st.db.media.filter (fun m => m.post_id ≠ id) = st.db.media :=
    List.filter_eq_self.mpr (fun m hm2 => by simpa using hm m hm2)
  have h3 : st.db.reactions.filter (fun r => r.post_id ≠ id) = st.db.reactions :=
    List.filter_eq_self.mpr (fun r hr2 => by simpa using hr r hr2)
  have h4 : st.db.comments.filter (fun c => c.post_id ≠ id) = st.db.comments :=
    List.filter_eq_self.mpr (fun c hc2 => by simpa using hc c hc2)
  have h5 : st.uploads.filter (fun f => f ∉ ownedFilenames st.db id) = st.uploads := by
    rw [howned]
    exact List.filter_eq_self.mpr (fun f _ => by simp)
  simp only [ne_eq, decide_not] at h1 h2 h3 h4 h5
  simp [deletePost, h1, h2, h3, h4, h5]

/-- Witness for C10: deleting the absent id "ghost" leaves the sample state
untouched and reports success. -/
theorem deletePost_missing_noop_witness :
    deletePost "ghost" sampleDeleteState = (sampleDeleteState, .ok 200) :=
  deletePost_missing_noop "ghost" sampleDeleteState
    (by decide) (by decide) (by decide) (by decide)

end FeedServer
